import Mathlib

/-!
Verification of the Drifters granular sample-explorer engine
(`drifters.cpp`).  The engine's per-sample processing is shallowly
embedded over exact rationals: machine floats become `Rat`, the
transcendental library calls (`sinf`, `cosf`, `expf`, `logf`, `powf`,
`sqrtf`, `tanhf`) become components of an explicit `Oracle` record so
that every engine definition stays executable, and the xorshift32
random generator is embedded exactly over `Nat` modulo `2^32`.
-/

namespace Drifters

/-- Abstract stand-ins for the C math-library calls used by the engine.
The structural properties proved below do not depend on the numeric
values these return; where a claim needs a fact about one of them
(for example that `sqrtf` of a value `≥ 2` is `≥ 1`) that fact is taken
as an explicit hypothesis. -/
structure Oracle where
  sinQ : ℚ → ℚ
  cosQ : ℚ → ℚ
  expQ : ℚ → ℚ
  logQ : ℚ → ℚ
  tanhQ : ℚ → ℚ
  sqrtQ : ℚ → ℚ
  powQ : ℚ → ℚ → ℚ

/-- A trivially computable oracle, used only to instantiate witnesses. -/
def zeroOracle : Oracle :=
  { sinQ := fun _ => 0, cosQ := fun _ => 0, expQ := fun _ => 0
    logQ := fun _ => 0, tanhQ := fun _ => 0, sqrtQ := fun _ => 0
    powQ := fun _ _ => 0 }

/-- Value of the `M_PI` constant as written in the source. -/
def mPi : ℚ := 3.14159265358979323846

-- ============================================================
-- Random generator (exact embedding of `xorshift32` / `randFloat`)
-- ============================================================

/-- One step of the Xorshift32 generator, on naturals mod `2^32`. -/
def xorshift32 (state : ℕ) : ℕ :=
  let x := state % 2 ^ 32
  let x := (Nat.xor x ((x <<< 13) % 2 ^ 32)) % 2 ^ 32
  let x := (Nat.xor x (x >>> 17)) % 2 ^ 32
  let x := (Nat.xor x ((x <<< 5) % 2 ^ 32)) % 2 ^ 32
  x

/-- `randFloat`: advance the generator and scale into `[0,1]`
(division by `0xFFFFFFFF`).  Returns the value and the new state. -/
def randFloat (state : ℕ) : ℚ × ℕ :=
  let s := xorshift32 state
  ((s : ℚ) / 4294967295, s)

/-- `randFloatBipolar`: `randFloat * 2 - 1`. -/
def randFloatBipolar (state : ℕ) : ℚ × ℕ :=
  let (u, s) := randFloat state
  (u * 2 - 1, s)

/-- `randExponential`: draw for the Poisson process,
`-log(max u 0.0001) / lambda`. -/
def randExponential (oracle : Oracle) (state : ℕ) (lambda : ℚ) : ℚ × ℕ :=
  let (u, s) := randFloat state
  let u := if u < 1 / 10000 then 1 / 10000 else u
  (-(oracle.logQ u) / lambda, s)

-- ============================================================
-- Scale tables (from the source's `scales` array)
-- ============================================================

/-- The chromatic scale table (index 0 of `scales`). -/
def scaleChromatic : List ℤ := [0, 1, 2, 3, 4, 5, 6, 7, 8, 9, 10, 11]

/-- The Ionian scale table (index 1 of `scales`). -/
def scaleIonian : List ℤ := [0, 2, 4, 5, 7, 9, 11]

/-- The Dorian scale table (index 2 of `scales`). -/
def scaleDorian : List ℤ := [0, 2, 3, 5, 7, 9, 10]

/-- The Hirajoshi scale table (a five-note entry of `scales`). -/
def scaleHirajoshi : List ℤ := [0, 2, 3, 7, 8]

/-- The Phrygian scale table (index 3 of `scales`). -/
def scalePhrygian : List ℤ := [0, 1, 3, 5, 7, 8, 10]

/-- The Lydian scale table (index 4 of `scales`). -/
def scaleLydian : List ℤ := [0, 2, 4, 6, 7, 9, 11]

/-- The Mixolydian scale table (index 5 of `scales`). -/
def scaleMixolydian : List ℤ := [0, 2, 4, 5, 7, 9, 10]

/-- The Aeolian scale table (index 6 of `scales`). -/
def scaleAeolian : List ℤ := [0, 2, 3, 5, 7, 8, 10]

/-- The Locrian scale table (index 7 of `scales`). -/
def scaleLocrian : List ℤ := [0, 1, 3, 5, 6, 8, 10]

/-- The Major b6 scale table (index 8 of `scales`). -/
def scaleMajorFlat6 : List ℤ := [0, 2, 4, 5, 7, 8, 11]

/-- The Minor b6 scale table (index 9 of `scales`). -/
def scaleMinorFlat6 : List ℤ := [0, 2, 3, 5, 7, 8, 10]

/-- The Lydian #4 scale table (index 10 of `scales`). -/
def scaleLydianSharp4 : List ℤ := [0, 2, 4, 6, 7, 9, 10]

/-- The Hungarian scale table (index 11 of `scales`). -/
def scaleHungarian : List ℤ := [0, 2, 3, 6, 7, 8, 11]

/-- The Persian scale table (index 12 of `scales`). -/
def scalePersian : List ℤ := [0, 1, 4, 5, 6, 8, 11]

/-- The Byzantine scale table (index 13 of `scales`). -/
def scaleByzantine : List ℤ := [0, 1, 4, 5, 7, 8, 11]

/-- The Enigmatic scale table (index 14 of `scales`). -/
def scaleEnigmatic : List ℤ := [0, 1, 4, 6, 8, 10, 11]

/-- The Neapolitan scale table (index 15 of `scales`). -/
def scaleNeapolitan : List ℤ := [0, 1, 3, 5, 7, 8, 11]

/-- The Iwato scale table (index 17 of `scales`). -/
def scaleIwato : List ℤ := [0, 1, 5, 6, 10]

/-- The Pelog scale table (index 18 of `scales`). -/
def scalePelog : List ℤ := [0, 1, 3, 7, 10]

/-- The Ryo scale table (index 19 of `scales`). -/
def scaleRyo : List ℤ := [0, 2, 4, 7, 9]

/-- The Ritsu scale table (index 20 of `scales`). -/
def scaleRitsu : List ℤ := [0, 2, 5, 7, 9]

/-- The Yo scale table (index 21 of `scales`). -/
def scaleYo : List ℤ := [0, 2, 5, 7, 10]

/-- The `scales` array: chromatic first, then the named scales. -/
def scalesTable : List (List ℤ) :=
  [scaleChromatic, scaleIonian, scaleDorian, scalePhrygian, scaleLydian,
   scaleMixolydian, scaleAeolian, scaleLocrian, scaleMajorFlat6,
   scaleMinorFlat6, scaleLydianSharp4, scaleHungarian, scalePersian,
   scaleByzantine, scaleEnigmatic, scaleNeapolitan, scaleHirajoshi,
   scaleIwato, scalePelog, scaleRyo, scaleRitsu, scaleYo]

/-- Modelled from the spec: the repository's source contains the scale
tables but no `degreeToSemitones` function; the spec describes the
conversion as `octave = floor(degree / scaleSize)`,
`offset = scale[degree mod scaleSize]`, `semitones = octave*12 + offset`. -/
def degreeToSemitones (degree : ℤ) (scale : List ℤ) : ℤ :=
  let size : ℤ := scale.length
  let octave := Int.fdiv degree size
  let offset := (scale.getD (Int.fmod degree size).toNat 0)
  octave * 12 + offset

/-- Candidate notes for nearest-in-scale search: the scale's notes and
the same notes one octave up (covers folding past the octave edge). -/
def quantizeCandidates (scale : List ℤ) : List ℤ :=
  scale ++ scale.map (fun n => n + 12)

/-- Modelled from the spec: nearest-neighbor choice among candidates,
scanned in ascending order with ties resolved toward the later
(higher) candidate. -/
def chooseNearest (x : ℚ) : List ℤ → ℤ → ℤ
  | [], best => best
  | c :: rest, best =>
      if |x - (c : ℚ)| ≤ |x - (best : ℚ)| then chooseNearest x rest c
      else chooseNearest x rest best

/-- Modelled from the spec: the repository's source contains the scale
tables but no `quantize` function; the spec describes snapping a
semitone value to the nearest in-scale note with octave folding. -/
def quantize (x : ℚ) (scale : List ℤ) : ℤ :=
  let octave := Int.floor (x / 12)
  let frac := x - 12 * (octave : ℚ)
  let cands := quantizeCandidates scale
  let folded := chooseNearest frac cands.tail (cands.headD 0)
  12 * octave + folded

-- ============================================================
-- Small helper functions of the engine
-- ============================================================

/-- `densityToRate`: map density 0-100 to grains per second,
`0.25 * powf(200, density/100)`. -/
def densityToRate (oracle : Oracle) (density : ℚ) : ℚ :=
  1 / 4 * oracle.powQ 200 (density / 100)

/-- `densityToSize`: map density to grain size in seconds,
`0.5 * powf(0.2, density/100)`. -/
def densityToSize (oracle : Oracle) (density : ℚ) : ℚ :=
  1 / 2 * oracle.powQ (1 / 5) (density / 100)

/-- `tiltVolume`: per-drifter gain from the bipolar tilt control. -/
def tiltVolume (drifterIndex : ℕ) (tilt : ℚ) : ℚ :=
  let normalizedIndex : ℚ := (drifterIndex : ℚ) / 3
  let tiltEffect := (normalizedIndex - 1 / 2) * 2 * tilt
  1 + tiltEffect * (1 / 2)

/-- Semantics of the C cast `(int)x` for a rational: truncation toward
zero. -/
def cIntCast (x : ℚ) : ℤ :=
  if 0 ≤ x then Int.floor x else -Int.floor (-x)

/-- `flushDenormal`: values of magnitude below `1e-20` become 0. -/
def flushDenormal (x : ℚ) : ℚ :=
  if |x| < 1 / 10 ^ 20 then 0 else x

/-- `grainEnvelope`: envelope value for a phase and shape
(shapes 0-4: Mist, Cloud, Rain, Hail, Ice), with the universal 3%
boundary fade. -/
def grainEnvelope (oracle : Oracle) (phase : ℚ) (shape : ℕ) : ℚ :=
  if phase < 0 ∨ phase > 1 then 0
  else
    let fadeLen : ℚ := 3 / 100
    let fade :=
      if phase < fadeLen then phase / fadeLen
      else if phase > 1 - fadeLen then (1 - phase) / fadeLen
      else 1
    let env :=
      if shape = 0 then
        let s := oracle.sinQ (phase * mPi)
        s * s
      else if shape = 1 then
        let alpha : ℚ := 1 / 2
        if phase < alpha / 2 then 1 / 2 * (1 - oracle.cosQ (2 * mPi * phase / alpha))
        else if phase > 1 - alpha / 2 then
          1 / 2 * (1 - oracle.cosQ (2 * mPi * (1 - phase) / alpha))
        else 1
      else if shape = 2 then
        if phase < 1 / 2 then phase * 2 else (1 - phase) * 2
      else if shape = 3 then
        if phase < 1 / 10 then phase * 10 else oracle.expQ (-4 * (phase - 1 / 10))
      else if shape = 4 then
        if phase < 2 / 100 then phase * 50
        else if phase > 98 / 100 then (1 - phase) * 50
        else 1
      else 1
    env * fade

-- ============================================================
-- Zero-crossing search (`findNearestZeroCrossing`)
-- ============================================================

/-- Loop body of `findNearestZeroCrossing`: scan offsets outward,
keeping the position of smallest magnitude and returning early at the
first sign change.  `remaining` counts the offsets still to visit. -/
def fnzcLoop (buffer : ℤ → ℚ) (startPos len : ℤ) :
    ℕ → ℤ → ℤ → ℚ → ℤ
  | 0, _, bestPos, _ => bestPos
  | r + 1, offset, bestPos, bestVal =>
      let posF := Int.tmod (startPos + offset) len
      let valF := |buffer posF|
      let (bestPos, bestVal) :=
        if valF < bestVal then (posF, valF) else (bestPos, bestVal)
      let prevF := Int.tmod (startPos + offset - 1) len
      if offset > 0 ∧ buffer prevF * buffer posF < 0 then
        if |buffer prevF| < |buffer posF| then prevF else posF
      else
        let posB := Int.tmod (startPos - offset + len) len
        let valB := |buffer posB|
        let (bestPos, bestVal) :=
          if valB < bestVal then (posB, valB) else (bestPos, bestVal)
        let prevB := Int.tmod (startPos - offset + 1 + len) len
        if offset > 0 ∧ buffer prevB * buffer posB < 0 then
          if |buffer prevB| < |buffer posB| then prevB else posB
        else
          fnzcLoop buffer startPos len r (offset + 1) bestPos bestVal

/-- `findNearestZeroCrossing` with an explicit search radius. -/
def findNearestZeroCrossing (buffer : ℤ → ℚ) (startPos len : ℤ)
    (searchRadius : ℕ) : ℤ :=
  if len ≤ 0 then 0
  else
    let bestPos := Int.tmod startPos len
    fnzcLoop buffer startPos len searchRadius 1 bestPos |buffer bestPos|

-- ============================================================
-- Data structures
-- ============================================================

/-- State-variable filter state (`BandFilter`). -/
structure BandFilter where
  lowpass : ℚ
  bandpass : ℚ
  highpass : ℚ
deriving DecidableEq, Repr

/-- Zeroed filter state. -/
def BandFilter.zero : BandFilter := ⟨0, 0, 0⟩

/-- `BandFilter::process`: one filter tick.  The frequency coefficient
and Q are clamped for stability, denormals are flushed; the float NaN
checks are identities over exact rationals.  Returns the new state and
the bandpass output. -/
def BandFilter.process (bf : BandFilter) (oracle : Oracle)
    (input freq q sr : ℚ) : BandFilter × ℚ :=
  let f := 2 * oracle.sinQ (mPi * min freq (sr * (2 / 5)) / sr)
  let f := min f (7 / 10)
  let q := min q (19 / 20)
  let lp := bf.lowpass + f * bf.bandpass
  let hp := input - lp - q * bf.bandpass
  let bp := bf.bandpass + f * hp
  let lp := flushDenormal lp
  let bp := flushDenormal bp
  let hp := flushDenormal hp
  ({ lowpass := lp, bandpass := bp, highpass := hp }, bp)

/-- One grain voice of the fixed pool. -/
structure Grain where
  active : Bool
  position : ℚ
  positionDelta : ℚ
  phase : ℚ
  phaseDelta : ℚ
  drifterIndex : ℕ
  shape : ℕ
  amplitude : ℚ
  filterL : BandFilter
  filterR : BandFilter
deriving DecidableEq, Repr

/-- The zeroed, inactive grain produced by the constructor's `memset`. -/
def inactiveGrain : Grain :=
  { active := false, position := 0, positionDelta := 0, phase := 0
    phaseDelta := 0, drifterIndex := 0, shape := 0, amplitude := 0
    filterL := BandFilter.zero, filterR := BandFilter.zero }

/-- One autonomous drifter agent. -/
structure Drifter where
  position : ℚ
  velocity : ℚ
  pitchOffset : ℚ
  timeSinceGrain : ℚ
  nextGrainTime : ℚ
  variation : ℚ
  driftDirection : ℚ
  boredom : ℚ
  lastSignificantPos : ℚ
deriving DecidableEq, Repr

/-- Placeholder drifter (also the `memset`-zero value). -/
def zeroDrifter : Drifter :=
  { position := 0, velocity := 0, pitchOffset := 0, timeSinceGrain := 0
    nextGrainTime := 0, variation := 0, driftDirection := 0, boredom := 0
    lastSignificantPos := 0 }

/-- The performance-critical engine state (`_driftEngine_DTC`). -/
structure DTC where
  drifters : List Drifter
  grains : List Grain
  anchorSmooth : ℚ
  driftSmooth : ℚ
  densitySmooth : ℚ
  entropySmooth : ℚ
  stormLevel : ℚ
  clockPhase : ℚ
  clockPeriod : ℚ
  clockReceived : Bool
  prevClock : ℚ
  averagePosition : ℚ
  pulseOut : Bool
  smoothNorm : ℚ
  randState : ℕ
deriving DecidableEq, Repr

/-- Integer parameter values as read from `v[]` in `step`, plus the
two output-mode flags. -/
structure Params where
  anchor : ℤ
  wander : ℤ
  gravity : ℤ
  drift : ℤ
  density : ℤ
  deviation : ℤ
  pitch : ℤ
  scatter : ℤ
  spectrum : ℤ
  tilt : ℤ
  shape : ℕ
  entropy : ℤ
  replaceL : Bool
  replaceR : Bool
deriving DecidableEq, Repr

/-- Per-block environment: oracle, sample rates and the sample buffer
(`_driftEngine_DRAM` plus globals). -/
structure Env where
  oracle : Oracle
  sr : ℚ
  sourceSampleRate : ℚ
  sampleLen : ℤ
  sampleLoaded : Bool
  buffer : ℤ → ℚ

/-- Per-frame bus inputs: existing output-bus contents and the optional
CV streams (absent when the routing parameter is 0). -/
structure FrameIn where
  busL : ℚ
  busR : ℚ
  cvAnchor : Option ℚ
  cvPitch : Option ℚ
  cvDrift : Option ℚ
  cvEntropy : Option ℚ
  cvStorm : Option ℚ
  cvClock : Option ℚ
deriving DecidableEq, Repr

/-- Per-frame outputs written to the busses. -/
structure FrameOut where
  outL : ℚ
  outR : ℚ
  cvPos : ℚ
  cvPulse : ℚ
deriving DecidableEq, Repr

-- ============================================================
-- Constructor (`construct`)
-- ============================================================

/-- Initialize one drifter as in `construct` (two random draws:
initial grain stagger and the per-drifter variation). -/
def mkDrifter (i : ℕ) (rng : ℕ) : Drifter × ℕ :=
  let pos : ℚ := 1 / 4 + (i : ℚ) * (15 / 100)
  let (u1, rng) := randFloat rng
  let (u2, rng) := randFloat rng
  ({ position := pos, velocity := 0, pitchOffset := 0, timeSinceGrain := 0
     nextGrainTime := u1 * (1 / 2), variation := 1 / 2 + u2 * (1 / 2)
     driftDirection := if i % 2 = 0 then 1 else -1, boredom := 0
     lastSignificantPos := pos }, rng)

/-- Initialize drifters `i, i+1, ...` (`n` of them), threading the
random state in loop order. -/
def mkDrifters (i rng : ℕ) : ℕ → List Drifter × ℕ
  | 0 => ([], rng)
  | n + 1 =>
      let (d, rng1) := mkDrifter i rng
      let (rest, rng2) := mkDrifters (i + 1) rng1 n
      (d :: rest, rng2)

/-- The DTC state produced by `construct`: seed `0x12345678`, unity
`smoothNorm`, defaulted smoothed parameters, four spread drifters and
an all-inactive grain pool. -/
def constructDTC : DTC :=
  let seed : ℕ := 0x12345678
  let (ds, rng) := mkDrifters 0 seed 4
  { drifters := ds
    grains := List.replicate 16 inactiveGrain
    anchorSmooth := 1 / 2
    driftSmooth := 3 / 10
    densitySmooth := 8
    entropySmooth := 1 / 4
    stormLevel := 0
    clockPhase := 0
    clockPeriod := 0
    clockReceived := false
    prevClock := 0
    averagePosition := 0
    pulseOut := false
    smoothNorm := 1
    randState := rng }

-- ============================================================
-- Drifter movement (gravity, repulsion, bounce, boredom)
-- ============================================================

/-- Filter-bank center frequencies (`kBandCenterFreqs`). -/
def bandCenterFreqs : List ℚ := [250, 750, 1550, 4000]

/-- Pairwise repulsion term between a drifter at `posD` and another at
`posOther`: inverse-distance force inside the 5% proximity window,
zero outside it or below the 0.001 degeneracy guard. -/
def repulsionTerm (posD posOther : ℚ) : ℚ :=
  let diff := posD - posOther
  let absDiff := |diff|
  if absDiff < 1 / 20 ∧ absDiff > 1 / 1000 then
    (if diff > 0 then 1 else -1) * ((1 / 100000) / absDiff)
  else 0

/-- The repulsion accumulation loop over the other drifters, in index
order, skipping drifter `d` itself. -/
def repulsionFold (positions : List ℚ) (d : ℕ) (posD : ℚ) : ℚ :=
  (List.range positions.length).foldl
    (fun acc o => if o = d then acc else acc + repulsionTerm posD (positions.getD o 0)) 0

/-- The repulsion force the engine adds to a drifter's velocity: the
accumulated pairwise terms scaled by `(1 - boredom * 1.05)` (the
comment in the source: `-5% at full boredom`). -/
def appliedRepulsion (positions : List ℚ) (d : ℕ) (posD boredom : ℚ) : ℚ :=
  repulsionFold positions d posD * (1 - boredom * (21 / 20))

/-- The soft boundary bounce at `anchor ± wander` followed by the hard
clamp to `[0.001, 0.999]`; returns the new position, velocity and
drift direction. -/
def bounceAndClamp (pos vel dir anchor wander : ℚ) : ℚ × ℚ × ℚ :=
  let minPos := anchor - wander
  let maxPos := anchor + wander
  let (pos, vel, dir) :=
    if pos < minPos then (minPos + (minPos - pos) * (1 / 2), |vel| * (1 / 2), (1 : ℚ))
    else (pos, vel, dir)
  let (pos, vel, dir) :=
    if pos > maxPos then (maxPos - (pos - maxPos) * (1 / 2), -|vel| * (1 / 2), (-1 : ℚ))
    else (pos, vel, dir)
  (max (1 / 1000) (min (999 / 1000) pos), vel, dir)

-- ============================================================
-- Grain scheduling and allocation
-- ============================================================

/-- The per-drifter trigger decision: clock-locked when a clock has
been received and deviation is 0, blended for intermediate deviation,
free-running Poisson otherwise.  Returns the decision and the random
state (consumed only by the blended branch's probability draw). -/
def triggerDecision (rng : ℕ) (clockReceived : Bool) (deviation : ℚ)
    (clockEdge : Bool) (timeSinceGrain nextGrainTime : ℚ) : Bool × ℕ :=
  if clockReceived ∧ deviation < 1 then
    if deviation = 0 then (clockEdge, rng)
    else if clockEdge then (true, rng)
    else if timeSinceGrain ≥ nextGrainTime then
      let (u, rng) := randFloat rng
      (decide (u < deviation), rng)
    else (false, rng)
  else (decide (timeSinceGrain ≥ nextGrainTime), rng)

/-- The semitone value computed for a freshly triggered grain: master
pitch parameter plus pitch CV, the per-drifter scatter term, and the
entropy-scaled random jitter. -/
def grainPitchSemis (pitchParam scatterParam : ℤ) (pitchMod : ℚ) (d : ℕ)
    (jitterBip entropy : ℚ) : ℚ :=
  let pitchSemis := (pitchParam : ℚ) + pitchMod
  let scatterDir : ℚ := if d = 0 ∨ d = 3 then 1 else -1
  let scatterIdx : ℚ := if d = 0 ∨ d = 3 then |(d : ℚ) - 3 / 2| else |(d : ℚ) - 3 / 2|
  let pitchSemis := pitchSemis + (scatterParam : ℚ) * scatterDir * (scatterIdx / (3 / 2))
  pitchSemis + jitterBip * entropy * 2

/-- Configure a grain in a freshly claimed slot: zero-crossing-snapped
start position, density-derived envelope rate, pitch and playback
rate; the slot's filter state deliberately carries over. -/
def mkTriggeredGrain (env : Env) (P : Params) (d : ℕ) (drPos : ℚ)
    (pitchMod entropy : ℚ) (old : Grain) (rng : ℕ) : Grain × ℕ :=
  let rawPos := cIntCast (drPos * (env.sampleLen : ℚ))
  let gpos : ℚ := (findNearestZeroCrossing env.buffer rawPos env.sampleLen 256 : ℚ)
  let grainSize := densityToSize env.oracle (P.density : ℚ) * env.sr
  let (jit, rng) := randFloatBipolar rng
  let pitchSemis := grainPitchSemis P.pitch P.scatter pitchMod d jit entropy
  let sampleRateRatio := env.sourceSampleRate / env.sr
  ({ active := true, position := gpos, phase := 0
     phaseDelta := 1 / grainSize, drifterIndex := d, shape := P.shape
     amplitude := 1
     positionDelta := env.oracle.powQ 2 (pitchSemis / 12) * sampleRateRatio
     filterL := old.filterL, filterR := old.filterR }, rng)

/-- Scan the pool for the first inactive slot and configure it with
`mk`; when every slot is active the trigger is dropped and the pool is
returned unchanged.  The boolean reports whether a slot was claimed
(the pulse output). -/
def triggerPool (mk : Grain → ℕ → Grain × ℕ) (rng : ℕ) :
    List Grain → List Grain × ℕ × Bool
  | [] => ([], rng, false)
  | g :: rest =>
      if g.active then
        let (rest1, rng1, p) := triggerPool mk rng rest
        (g :: rest1, rng1, p)
      else
        let (g1, rng1) := mk g rng
        (g1 :: rest, rng1, true)

/-- One drifter's full per-sample update: movement forces, bounce,
boredom, and the grain-trigger decision with possible pool
allocation.  The state bundle carries the drifter list (earlier
indices already updated this tick), the grain pool, the random state
and the pulse flag. -/
def drifterTick (env : Env) (P : Params)
    (dt anchor wander gravity drift entropy deviation pitchMod densitySmooth : ℚ)
    (clockEdge clockReceived : Bool)
    (st : List Drifter × List Grain × ℕ × Bool) (d : ℕ) :
    List Drifter × List Grain × ℕ × Bool :=
  let (drifters, grains, rng, pulse) := st
  let dr := drifters.getD d zeroDrifter
  let dist := dr.position - anchor
  let gravityAccel := -gravity * dist * 100
  let repulsion := appliedRepulsion (drifters.map (fun x => x.position)) d dr.position dr.boredom
  let (bip, rng) := randFloatBipolar rng
  let randomWalk := bip * entropy * (1 / 100)
  let vel := ((dr.velocity + gravityAccel * dt) + repulsion + randomWalk) * (199 / 200)
  let baseDrift := drift * dr.variation * dr.driftDirection * dt * (1 / 20)
  let pos := dr.position + vel * dt + baseDrift
  let (pos, vel, dir) := bounceAndClamp pos vel dr.driftDirection anchor wander
  let movementFromHome := |pos - dr.lastSignificantPos|
  let (boredom, lastSig) :=
    if movementFromHome > 3 / 100 then ((0 : ℚ), pos)
    else (min 1 (dr.boredom + (1 / 20) * dt), dr.lastSignificantPos)
  let dr1 : Drifter :=
    { dr with
      position := pos, velocity := vel, driftDirection := dir
      boredom := boredom, lastSignificantPos := lastSig
      timeSinceGrain := dr.timeSinceGrain + dt }
  let (should, rng) :=
    triggerDecision rng clockReceived deviation clockEdge dr1.timeSinceGrain dr1.nextGrainTime
  if should then
    let (bip2, rng) := randFloatBipolar rng
    let lambda := densitySmooth * (1 + bip2 * entropy * (1 / 2))
    let (nxt, rng) := randExponential env.oracle rng lambda
    let dr2 := { dr1 with timeSinceGrain := 0, nextGrainTime := nxt }
    let (grains1, rng1, found) :=
      triggerPool (mkTriggeredGrain env P d dr2.position pitchMod entropy) rng grains
    (drifters.set d dr2, grains1, rng1, pulse || found)
  else
    (drifters.set d dr1, grains, rng, pulse)

-- ============================================================
-- Grain rendering
-- ============================================================

/-- Denotation of the two position-wrapping `while` loops:
fold `p` into `[0, len)` when `len` is positive. -/
def wrapPos (p len : ℚ) : ℚ :=
  if 0 < len then p - len * (Int.floor (p / len) : ℚ) else p

/-- Render one active grain for one tick: interpolated sample read,
envelope, optional band filtering, tilt, pan, and state advance;
returns the updated grain and its stereo contribution. -/
def renderOne (env : Env) (P : Params) (anchor wander : ℚ)
    (positions : List ℚ) (gr : Grain) : Grain × ℚ × ℚ :=
  let len := env.sampleLen
  let pos0 := cIntCast gr.position
  let pos1 := pos0 + 1
  let frac := gr.position - (pos0 : ℚ)
  let pos0 := Int.tmod pos0 len
  let pos1 := Int.tmod pos1 len
  let pos0 := if pos0 < 0 then pos0 + len else pos0
  let pos1 := if pos1 < 0 then pos1 + len else pos1
  let sampleMono := env.buffer pos0 * (1 - frac) + env.buffer pos1 * frac
  let envVal := grainEnvelope env.oracle gr.phase gr.shape
  let sample := sampleMono * envVal * gr.amplitude
  let d := gr.drifterIndex
  let spectrumSep := (P.spectrum : ℚ) / 100
  let (filterL, sample) :=
    if spectrumSep > 1 / 100 then
      let filterFreq := bandCenterFreqs.getD d 0
      let filterQ := 1 + spectrumSep * 2
      let (bf, out) := gr.filterL.process env.oracle sample filterFreq filterQ env.sr
      (bf, out * (1 + spectrumSep))
    else (gr.filterL, sample)
  let tiltAmount := (P.tilt : ℚ) / 100
  let sample := sample * tiltVolume d tiltAmount
  let drifterPos := positions.getD d 0
  let pan := if wander > 1 / 100 then (drifterPos - anchor) / wander else 0
  let pan := max (-1) (min 1 pan)
  let panL := 1 / 2 - pan * (1 / 2)
  let panR := 1 / 2 + pan * (1 / 2)
  let contribL := sample * panL
  let contribR := sample * panR
  let position := gr.position + gr.positionDelta
  let phase := gr.phase + gr.phaseDelta
  let position := wrapPos position (len : ℚ)
  let active := if phase ≥ 1 then false else gr.active
  ({ gr with
     position := position, phase := phase, filterL := filterL
     active := active }, contribL, contribR)

/-- The render loop over the pool: inactive slots pass through, active
grains are counted, and actives counted beyond `kMaxActiveGrains = 8`
are skipped entirely for the tick (CPU guard).  Returns the updated
pool, the stereo mix, and the total active count. -/
def renderLoop (renderFn : Grain → Grain × ℚ × ℚ) :
    ℕ → List Grain → List Grain × ℚ × ℚ × ℕ
  | count, [] => ([], 0, 0, count)
  | count, g :: rest =>
      if g.active then
        let count1 := count + 1
        if count1 > 8 then
          let (rest1, l, r, c) := renderLoop renderFn count1 rest
          (g :: rest1, l, r, c)
        else
          let (g1, cl, cr) := renderFn g
          let (rest1, l, r, c) := renderLoop renderFn count1 rest
          (g1 :: rest1, cl + l, cr + r, c)
      else
        let (rest1, l, r, c) := renderLoop renderFn count rest
        (g :: rest1, l, r, c)

-- ============================================================
-- Output stage
-- ============================================================

/-- The loudness-normalization target: `1/sqrt(activeGrains)` when
more than one grain is active, unity otherwise. -/
def targetNorm (oracle : Oracle) (activeGrains : ℕ) : ℚ :=
  if activeGrains > 1 then 1 / oracle.sqrtQ (activeGrains : ℚ) else 1

/-- One tick of the smoothed normalization factor: move 0.1% of the
way toward the target, then floor at 0.1. -/
def smoothNormUpdate (s target : ℚ) : ℚ :=
  let s := s + (1 / 1000) * (target - s)
  if s < 1 / 10 then 1 / 10 else s

/-- A float-like value for the output stage: finite rational, NaN, or
a signed infinity. -/
inductive ExtVal where
  | fin (q : ℚ)
  | nan
  | pinf
  | ninf
deriving DecidableEq, Repr

/-- Multiplication of a float-like value by a positive finite
constant: preserves NaN and the infinities. -/
def mulPosExt (c : ℚ) : ExtVal → ExtVal
  | .fin q => .fin (c * q)
  | v => v

/-- `tanhf` on a float-like value: NaN propagates, the infinities
saturate to `±1`, finite values go through the supplied clip
function. -/
def tanhExt (t : ℚ → ℚ) : ExtVal → ExtVal
  | .fin q => .fin (t q)
  | .nan => .nan
  | .pinf => .fin 1
  | .ninf => .fin (-1)

/-- The NaN/Inf guard: NaN and the infinities (which fail the
`±1e10` magnitude test) are replaced by 0; finite values beyond
`1e10` in magnitude are likewise zeroed. -/
def nanGuard : ExtVal → ℚ
  | .fin q => if q > 10 ^ 10 ∨ q < -(10 ^ 10) then 0 else q
  | _ => 0

/-- The complete final output stage of `step`: scale by 2, soft-clip,
scale to `±5 V`, then apply the NaN/Inf guard. -/
def outputStage (t : ℚ → ℚ) (m : ExtVal) : ℚ :=
  nanGuard (mulPosExt 5 (tanhExt t (mulPosExt 2 m)))

-- ============================================================
-- One sample frame of `step` (the per-sample loop body)
-- ============================================================

/-- One iteration of the per-sample loop of `step`: CV reads,
parameter smoothing, storm decay, clock-edge detection, the four
drifter updates with grain triggering, grain rendering, smoothed
normalization, soft clip and guard, and the bus/CV writes. -/
def processFrame (env : Env) (P : Params) (fin : FrameIn) (dtc : DTC) :
    DTC × FrameOut :=
  let dt := 1 / env.sr
  let anchorMod := match fin.cvAnchor with | some v => v * (1 / 10) | none => 0
  let pitchMod := match fin.cvPitch with | some v => v * 12 | none => 0
  let driftMod := match fin.cvDrift with | some v => 1 + v * (1 / 5) | none => 1
  let entropyMod := match fin.cvEntropy with | some v => max 0 (v * (1 / 5)) | none => 0
  let stormGate := match fin.cvStorm with | some v => decide (v > 1) | none => false
  let clockIn := match fin.cvClock with | some v => v | none => 0
  let smoothRate : ℚ := 1 / 1000
  let anchorTarget := (P.anchor : ℚ) / 100
  let driftSpeed := (P.drift : ℚ) / 100
  let densityRate := densityToRate env.oracle (P.density : ℚ)
  let anchorSmooth := dtc.anchorSmooth + (anchorTarget + anchorMod - dtc.anchorSmooth) * smoothRate
  let driftSmooth := dtc.driftSmooth + (driftSpeed * driftMod - dtc.driftSmooth) * smoothRate
  let densitySmooth := dtc.densitySmooth + (densityRate - dtc.densitySmooth) * smoothRate
  let targetEntropy := (P.entropy : ℚ) / 100 + entropyMod
  let stormLevel := if stormGate then 1 else dtc.stormLevel * (9999 / 10000)
  let effectiveEntropy := min 1 (targetEntropy + stormLevel)
  let entropySmooth := dtc.entropySmooth + (effectiveEntropy - dtc.entropySmooth) * smoothRate
  let clockEdge := decide (clockIn > 1 ∧ dtc.prevClock ≤ 1)
  let clockPeriod :=
    if clockEdge && dtc.clockReceived then 1 / dtc.clockPhase else dtc.clockPeriod
  let clockPhase := if clockEdge then 0 else dtc.clockPhase
  let clockReceived := clockEdge || dtc.clockReceived
  let prevClock := clockIn
  let clockPhase := if clockReceived then clockPhase + dt else clockPhase
  let anchor := max 0 (min 1 anchorSmooth)
  let wander := (P.wander : ℚ) / 100
  let gravity := (P.gravity : ℚ) / 100
  let drift := driftSmooth
  let entropy := entropySmooth
  let deviation := (P.deviation : ℚ) / 100
  let st0 := (dtc.drifters, dtc.grains, dtc.randState, dtc.pulseOut)
  let st :=
    [0, 1, 2, 3].foldl
      (drifterTick env P dt anchor wander gravity drift entropy deviation
        pitchMod densitySmooth clockEdge clockReceived) st0
  let (drifters1, grains1, rng1, pulse1) := st
  let positions := drifters1.map (fun x => x.position)
  let averagePosition := positions.sum / 4
  let (grains2, mixL, mixR, activeGrains) :=
    renderLoop (renderOne env P anchor wander positions) 0 grains1
  let tN := targetNorm env.oracle activeGrains
  let smoothNorm := smoothNormUpdate dtc.smoothNorm tN
  let mixL := mixL * smoothNorm
  let mixR := mixR * smoothNorm
  let outMixL := outputStage env.oracle.tanhQ (ExtVal.fin mixL)
  let outMixR := outputStage env.oracle.tanhQ (ExtVal.fin mixR)
  let outL := if P.replaceL then outMixL else fin.busL + outMixL
  let outR := if P.replaceR then outMixR else fin.busR + outMixR
  let dtc1 : DTC :=
    { drifters := drifters1
      grains := grains2
      anchorSmooth := anchorSmooth
      driftSmooth := driftSmooth
      densitySmooth := densitySmooth
      entropySmooth := entropySmooth
      stormLevel := stormLevel
      clockPhase := clockPhase
      clockPeriod := clockPeriod
      clockReceived := clockReceived
      prevClock := prevClock
      averagePosition := averagePosition
      pulseOut := false
      smoothNorm := smoothNorm
      randState := rng1 }
  (dtc1, { outL := outL, outR := outR
           cvPos := averagePosition * 5
           cvPulse := if pulse1 then 5 else 0 })

/-- The per-sample loop over a block's frames. -/
def processFrames (env : Env) (P : Params) :
    List FrameIn → DTC → DTC × List FrameOut
  | [], dtc => (dtc, [])
  | f :: rest, dtc =>
      let (dtc1, out) := processFrame env P f dtc
      let (dtc2, outs) := processFrames env P rest dtc1
      (dtc2, out :: outs)

/-- One audio block of `step`, from the sample-loaded guard on: with
no sample or a too-short one, the block is silent (zeros in replace
mode, busses untouched in add mode, zero CV outputs) and the state is
returned untouched; otherwise every frame is processed. -/
def stepBlock (env : Env) (P : Params) (frames : List FrameIn) (dtc : DTC) :
    DTC × List FrameOut :=
  if ¬env.sampleLoaded ∨ env.sampleLen < 100 then
    (dtc, frames.map (fun f =>
      { outL := if P.replaceL then 0 else f.busL
        outR := if P.replaceR then 0 else f.busR
        cvPos := 0, cvPulse := 0 }))
  else
    processFrames env P frames dtc

-- ============================================================
-- Spec-side definitions (for refinement comparisons)
-- ============================================================

/-- Number of active grains in a pool. -/
def activeCount (pool : List Grain) : ℕ :=
  pool.countP (fun g => g.active)

/-- The spec's unquantized raw semitone sum: master transpose, pitch
CV, per-drifter scatter, and entropy jitter, added. -/
def rawSemitoneSum (transpose cv scatter jitter : ℚ) : ℚ :=
  transpose + cv + scatter + jitter

/-- Modelled from the spec: the source has no scale-selector parameter
and no quantization call in its pitch path; the spec's pipeline
quantizes the summed semitone value to the selected scale, with the
chromatic scale (index 0) as a pure bypass. -/
def pitchWithScale (scaleIdx : ℕ) (semis : ℚ) : ℚ :=
  if scaleIdx = 0 then semis
  else (quantize semis (scalesTable.getD scaleIdx []) : ℚ)

/-- The spec's reading of the inter-drifter force: the plain sum of
the pairwise repulsion terms over the other drifters. -/
def pairwiseRepulsionSum (positions : List ℚ) (d : ℕ) (posD : ℚ) : ℚ :=
  ∑ o ∈ Finset.range positions.length,
    if o = d then 0 else repulsionTerm posD (positions.getD o 0)

/-- A computable stand-in for `tanhf` with the property that matters
(|value| ≤ 1), used to instantiate witnesses. -/
def pseudoTanh (x : ℚ) : ℚ := x / (1 + |x|)

-- ============================================================
-- Concrete fixtures (used only to instantiate witnesses and
-- counterexamples)
-- ============================================================

/-- A loaded 100-frame silent sample environment over the zero oracle. -/
def fixEnv : Env :=
  { oracle := zeroOracle, sr := 48000, sourceSampleRate := 48000
    sampleLen := 100, sampleLoaded := true, buffer := fun _ => 0 }

/-- Default parameter values except `wander = 0`, both outputs in
replace mode. -/
def fixParams : Params :=
  { anchor := 50, wander := 0, gravity := 0, drift := 30, density := 50
    deviation := 100, pitch := 0, scatter := 0, spectrum := 0, tilt := 0
    shape := 1, entropy := 25, replaceL := true, replaceR := true }

/-- A frame with no CV routed and empty busses. -/
def fixFrame : FrameIn :=
  { busL := 0, busR := 0, cvAnchor := none, cvPitch := none, cvDrift := none
    cvEntropy := none, cvStorm := none, cvClock := none }

/-- A minimal active grain for pool fixtures. -/
def fixActiveGrain : Grain := { inactiveGrain with active := true }

/-- A full pool: sixteen active grains. -/
def fixFullPool : List Grain := List.replicate 16 fixActiveGrain

/-- A pool with nine active grains followed by seven inactive slots. -/
def fixNinePool : List Grain :=
  List.replicate 9 fixActiveGrain ++ List.replicate 7 inactiveGrain

/-- An environment identical to `fixEnv` but with no sample loaded. -/
def fixEnvUnloaded : Env := { fixEnv with sampleLoaded := false }

/-- An environment whose square-root oracle is the identity (which is
`≥ 1` on arguments `≥ 2`, all that the normalization bound needs). -/
def fixEnvSqrt : Env :=
  { fixEnv with oracle := { zeroOracle with sqrtQ := fun x => x } }

/-- A pool with grain `g` forced inactive (used to state that a
skipped grain contributes nothing to the mix). -/
def deactivateAt (pool : List Grain) (g : ℕ) : List Grain :=
  pool.set g { pool.getD g inactiveGrain with active := false }

-- ============================================================
-- Theorems
-- ============================================================

-- Batteries marks the rational field operations irreducible, which
-- blocks kernel evaluation of concrete instances; re-enable it for
-- this verification development.
attribute [local semireducible] Rat.mul Rat.inv Rat.add Rat.sub Rat.ofScientific

/-- Helper: a trigger scanning a fully active pool changes nothing and
consumes no randomness. -/
theorem triggerPool_all_active (mk : Grain → ℕ → Grain × ℕ) (rng : ℕ) :
    ∀ pool : List Grain, (∀ g ∈ pool, g.active = true) →
      triggerPool mk rng pool = (pool, rng, false) := by
  intro pool
  induction pool with
  | nil => intro _; rfl
  | cons g rest ih =>
      intro h
      have hg : g.active = true := h g (by simp)
      have hr := ih (fun x hx => h x (by simp [hx]))
      simp [triggerPool, hg, hr]

/-- C1: the grain pool holds `kMaxTotalGrains = 16` slots, so the
count of active grains can never exceed 16; and a trigger that finds
no inactive slot is dropped silently, leaving every grain's fields
(and the random state) exactly unchanged. -/
theorem grainPool_capacity_full_drop (pool : List Grain)
    (hlen : pool.length = 16) :
    activeCount pool ≤ 16 ∧
    ∀ (mk : Grain → ℕ → Grain × ℕ) (rng : ℕ),
      (∀ g ∈ pool, g.active = true) →
      triggerPool mk rng pool = (pool, rng, false) := by
  constructor
  · calc activeCount pool ≤ pool.length := List.countP_le_length _
      _ = 16 := hlen
  · intro mk rng hfull
    exact triggerPool_all_active mk rng pool hfull

/-- Witness for C1 at a concrete full pool. -/
theorem grainPool_capacity_full_drop_witness :
    fixFullPool.length = 16 ∧ activeCount fixFullPool ≤ 16 ∧
    triggerPool (mkTriggeredGrain fixEnv fixParams 0 (1/2) 0 (1/4)) 7 fixFullPool =
      (fixFullPool, 7, false) := by
  have h := grainPool_capacity_full_drop fixFullPool (by decide)
  exact ⟨by decide, h.1, h.2 _ 7 (by decide)⟩

/-- C3: with a clock received and the deviation value 0, the engine is
clock-locked — the trigger decision equals the clock-edge flag on
every tick (consuming no randomness), so the number of triggers over
any window of ticks equals the number of detected edges. -/
theorem clockLocked_trigger_iff_edge (deviation : ℚ) (clockReceived : Bool)
    (hdev : deviation = 0) (hrecv : clockReceived = true) :
    (∀ (rng : ℕ) (clockEdge : Bool) (ts nt : ℚ),
      triggerDecision rng clockReceived deviation clockEdge ts nt = (clockEdge, rng)) ∧
    ∀ (ticks : List (Bool × ℚ × ℚ)) (rng : ℕ),
      (ticks.map (fun t =>
        (triggerDecision rng clockReceived deviation t.1 t.2.1 t.2.2).1)).count true =
      (ticks.map (fun t => t.1)).count true := by
  subst hdev hrecv
  have h1 : ∀ (rng : ℕ) (ce : Bool) (ts nt : ℚ),
      triggerDecision rng true 0 ce ts nt = (ce, rng) := by
    intro rng ce ts nt
    simp [triggerDecision]
  exact ⟨h1, fun ticks rng => by simp [h1]⟩

/-- Witness for C3 at a concrete tick window. -/
theorem clockLocked_trigger_iff_edge_witness :
    triggerDecision 5 true 0 true 1 2 = (true, 5) ∧
    ([((true : Bool), (1 : ℚ), (2 : ℚ)), (false, 3, 4), (true, 0, 0)].map
        (fun t => (triggerDecision 5 true 0 t.1 t.2.1 t.2.2).1)).count true =
      ([((true : Bool), (1 : ℚ), (2 : ℚ)), (false, 3, 4), (true, 0, 0)].map
        (fun t => t.1)).count true := by
  have h := clockLocked_trigger_iff_edge 0 true rfl rfl
  exact ⟨h.1 5 true 1 2, h.2 [(true, 1, 2), (false, 3, 4), (true, 0, 0)] 5⟩

/-- C4: the spec's quantization examples on the Ionian scale
{0,2,4,5,7,9,11}: `quantize(2.5) = 2`, `quantize(3.0) = 4` (ties snap
upward), `degreeToSemitones(7) = 12` (octave wrap), and
`degreeToSemitones(-1) = -1` (floor division into the octave below). -/
theorem scaleQuantization_values :
    quantize (5 / 2) scaleIonian = 2 ∧ quantize 3 scaleIonian = 4 ∧
    degreeToSemitones 7 scaleIonian = 12 ∧
    degreeToSemitones (-1) scaleIonian = -1 := by decide

/-- C5: with the chromatic scale (index 0) selected, the grain pitch
computation is the unquantized raw semitone sum of master transpose,
pitch CV, per-drifter scatter and entropy jitter (the source's pitch
path contains no quantization step at all, so the bypass is exact). -/
theorem chromatic_pitch_bypass :
    ∀ (pitchParam scatterParam : ℤ) (pitchMod jitterBip entropy : ℚ) (d : ℕ),
      pitchWithScale 0
          (grainPitchSemis pitchParam scatterParam pitchMod d jitterBip entropy) =
        rawSemitoneSum (pitchParam : ℚ) pitchMod
          ((scatterParam : ℚ) * (if d = 0 ∨ d = 3 then 1 else -1) *
            (|(d : ℚ) - 3 / 2| / (3 / 2)))
          (jitterBip * entropy * 2) := by
  intro p s pm j e d
  simp only [pitchWithScale, grainPitchSemis, rawSemitoneSum, if_pos rfl]
  split_ifs <;> ring

/-- Helper: the witness clip function is bounded by one in magnitude,
as `tanhf` is. -/
theorem pseudoTanh_abs_le_one : ∀ x : ℚ, |pseudoTanh x| ≤ 1 := by
  intro x
  have hpos : (0 : ℚ) < 1 + |x| := by positivity
  rw [pseudoTanh, abs_div, abs_of_pos hpos, div_le_one hpos]
  linarith [abs_nonneg x]

/-- C9: the output stage (double, soft-clip with a `tanh` bounded by
one in magnitude, scale to `±5`, NaN/Inf guard) always produces a
finite rational in `[-5, 5]`, for finite, NaN and infinite mixes
alike. -/
theorem outputStage_bounded (t : ℚ → ℚ) (ht : ∀ x, |t x| ≤ 1) (m : ExtVal) :
    -5 ≤ outputStage t m ∧ outputStage t m ≤ 5 := by
  cases m with
  | fin q =>
      simp only [outputStage, mulPosExt, tanhExt, nanGuard]
      split_ifs with h
      · norm_num
      · have hb := ht (2 * q)
        rw [abs_le] at hb
        constructor <;> nlinarith [hb.1, hb.2]
  | nan => norm_num [outputStage, mulPosExt, tanhExt, nanGuard]
  | pinf => norm_num [outputStage, mulPosExt, tanhExt, nanGuard]
  | ninf => norm_num [outputStage, mulPosExt, tanhExt, nanGuard]

/-- Witness for C9 at a concrete mix value and clip function. -/
theorem outputStage_bounded_witness :
    -5 ≤ outputStage pseudoTanh (ExtVal.fin 100) ∧
    outputStage pseudoTanh (ExtVal.fin 100) ≤ 5 :=
  outputStage_bounded pseudoTanh pseudoTanh_abs_le_one (ExtVal.fin 100)

/-- C7: with no sample loaded or a sample shorter than 100 frames,
one block of `step` returns the engine state untouched, writes zeros
to the stereo output in replace mode (leaving the busses unchanged in
add mode), and writes zero to both CV outputs on every frame. -/
theorem silence_on_unloaded (env : Env) (P : Params) (frames : List FrameIn)
    (dtc : DTC) (h : env.sampleLoaded = false ∨ env.sampleLen < 100) :
    stepBlock env P frames dtc =
      (dtc, frames.map (fun f =>
        { outL := if P.replaceL then 0 else f.busL
          outR := if P.replaceR then 0 else f.busR
          cvPos := 0, cvPulse := 0 })) := by
  rw [stepBlock, if_pos]
  rcases h with h | h
  · exact Or.inl (by simp [h])
  · exact Or.inr h

/-- Witness for C7: one unloaded-sample block over two frames with
nonempty busses, one output in add mode. -/
theorem silence_on_unloaded_witness :
    stepBlock fixEnvUnloaded { fixParams with replaceR := false }
        [{ fixFrame with busL := 3, busR := 4 }] constructDTC =
      (constructDTC,
        [{ outL := 0, outR := 4, cvPos := 0, cvPulse := 0 }]) := by
  rw [silence_on_unloaded fixEnvUnloaded { fixParams with replaceR := false }
    [{ fixFrame with busL := 3, busR := 4 }] constructDTC (Or.inl rfl)]
  rfl

/-- Helper: a left fold of rational additions over an index range is
the corresponding finite sum. -/
theorem foldl_range_add (g : ℕ → ℚ) :
    ∀ (n : ℕ) (acc : ℚ),
      (List.range n).foldl (fun a o => a + g o) acc =
        acc + ∑ o ∈ Finset.range n, g o := by
  intro n
  induction n with
  | zero => intro acc; simp
  | succ k ih =>
      intro acc
      rw [List.range_succ, List.foldl_append, Finset.sum_range_succ, ih]
      simp [List.foldl]
      ring

/-- C8 counterexample: at full boredom the force the engine adds is
the pairwise sum times `1 - 1.05 = -0.05`, not times `(1 - boredom) = 0`:
with drifter 0 at 0.5 and a neighbor at 0.51, the engine adds a
nonzero (slightly attracting) force where the claim demands zero. -/
theorem repulsion_boredom_factor_cex :
    appliedRepulsion [1 / 2, 51 / 100, 1 / 10, 9 / 10] 0 (1 / 2) 1 ≠
      pairwiseRepulsionSum [1 / 2, 51 / 100, 1 / 10, 9 / 10] 0 (1 / 2) * (1 - 1) := by
  decide

/-- C8 amended: the repulsion force added to a drifter's velocity is
the sum of the pairwise inverse-distance terms (over other drifters
within the 5% proximity window) multiplied by `(1 - 1.05 * boredom)` —
minus five percent at full boredom, not `(1 - boredom)`. -/
theorem repulsion_boredom_factor (positions : List ℚ) (d : ℕ) (posD boredom : ℚ) :
    appliedRepulsion positions d posD boredom =
      pairwiseRepulsionSum positions d posD * (1 - boredom * (21 / 20)) := by
  unfold appliedRepulsion pairwiseRepulsionSum repulsionFold
  congr 1
  have hbody : (fun (a : ℚ) (o : ℕ) =>
      if o = d then a else a + repulsionTerm posD (positions.getD o 0)) =
      fun a o => a + (if o = d then 0 else repulsionTerm posD (positions.getD o 0)) := by
    funext a o
    split_ifs <;> ring
  rw [hbody, foldl_range_add]
  simp

/-- Helper: the smoothed normalization factor after `processFrame` is
`smoothNormUpdate` of the previous factor toward the target for some
active-grain count (the one the render loop produced). -/
theorem processFrame_smoothNorm (env : Env) (P : Params) (f : FrameIn) (dtc : DTC) :
    ∃ n : ℕ, (processFrame env P f dtc).1.smoothNorm =
      smoothNormUpdate dtc.smoothNorm (targetNorm env.oracle n) := ⟨_, rfl⟩

/-- Helper: the normalization target lies in `(0, 1]` whenever the
square-root oracle is at least one on arguments at least two. -/
theorem targetNorm_mem (oracle : Oracle)
    (hsq : ∀ x : ℚ, 2 ≤ x → 1 ≤ oracle.sqrtQ x) (n : ℕ) :
    0 < targetNorm oracle n ∧ targetNorm oracle n ≤ 1 := by
  unfold targetNorm
  split_ifs with h
  · have hn : (2 : ℚ) ≤ (n : ℚ) := by exact_mod_cast h
    have h1 := hsq (n : ℚ) hn
    have hpos : (0 : ℚ) < oracle.sqrtQ (n : ℚ) := lt_of_lt_of_le one_pos h1
    constructor
    · positivity
    · rw [div_le_one hpos]
      exact h1
  · norm_num

/-- Helper: one `smoothNormUpdate` step keeps the factor in
`[0.1, 1]` when the target lies in `(0, 1]`. -/
theorem smoothNormUpdate_mem (s t : ℚ) (hlo : 1 / 10 ≤ s) (hhi : s ≤ 1)
    (ht1 : t ≤ 1) :
    1 / 10 ≤ smoothNormUpdate s t ∧ smoothNormUpdate s t ≤ 1 := by
  simp only [smoothNormUpdate]
  split_ifs with h <;> constructor <;> linarith

/-- C10: the smoothed loudness-normalization factor starts at 1 and,
whenever the square-root oracle is at least one on arguments at least
two (as the real `sqrtf` is), one processed sample keeps it inside
`[0.1, 1]` — so the gain applied to the mix is never zero, negative,
or above unity. -/
theorem smoothNorm_invariant (env : Env) (P : Params) (f : FrameIn) (dtc : DTC)
    (hsq : ∀ x : ℚ, 2 ≤ x → 1 ≤ env.oracle.sqrtQ x)
    (hlo : 1 / 10 ≤ dtc.smoothNorm) (hhi : dtc.smoothNorm ≤ 1) :
    constructDTC.smoothNorm = 1 ∧
    1 / 10 ≤ (processFrame env P f dtc).1.smoothNorm ∧
    (processFrame env P f dtc).1.smoothNorm ≤ 1 := by
  refine ⟨rfl, ?_⟩
  obtain ⟨n, hn⟩ := processFrame_smoothNorm env P f dtc
  rw [hn]
  exact smoothNormUpdate_mem _ _ hlo hhi (targetNorm_mem env.oracle hsq n).2

/-- Witness for C10: one frame from the constructed state over an
identity square-root oracle. -/
theorem smoothNorm_invariant_witness :
    constructDTC.smoothNorm = 1 ∧
    1 / 10 ≤ (processFrame fixEnvSqrt fixParams fixFrame constructDTC).1.smoothNorm ∧
    (processFrame fixEnvSqrt fixParams fixFrame constructDTC).1.smoothNorm ≤ 1 :=
  smoothNorm_invariant fixEnvSqrt fixParams fixFrame constructDTC
    (fun x hx => by
      show (1 : ℚ) ≤ x
      linarith)
    (by rw [show constructDTC.smoothNorm = 1 from rfl]; norm_num)
    (by rw [show constructDTC.smoothNorm = 1 from rfl])

/-- Helper: clamping to `[lo, hi]` keeps a value inside any interval
`[a, b]` that contains it and lies inside the clamp range. -/
theorem clampBound (lo hi a b x : ℚ) (h1 : lo ≤ a) (h2 : b ≤ hi)
    (h3 : a ≤ x) (h4 : x ≤ b) :
    a ≤ max lo (min hi x) ∧ max lo (min hi x) ≤ b := by
  constructor
  · exact le_trans (le_min (le_trans (le_trans h3 h4) h2) h3) (le_max_right _ _)
  · exact max_le (le_trans h1 (le_trans h3 h4)) (le_trans (min_le_right _ _) h4)

/-- C2 counterexample: one reachable tick violates the claimed window
containment.  From the constructed state with the wander parameter 0
(anchor staying at 1/2), drifter 0 enters the tick at position ~1/4;
the first bounce reflects it to ~0.625, the second reflects it back to
~0.4375, and the hard clamp leaves it there — more than 1/20 away from
the claimed range `[anchor-wander, anchor+wander] = {1/2}` (so outside
`[anchor-wander-ε, anchor+wander+ε]` for every ε up to 1/20, and
outside the claimed intersection with `[0.001, 0.999]`). -/
theorem drifter_window_containment_cex :
    fixParams.wander = 0 ∧
    (processFrame fixEnv fixParams fixFrame constructDTC).1.anchorSmooth = 1 / 2 ∧
    ¬ ((1 : ℚ) / 2 - 0 - 1 / 20 ≤
        ((processFrame fixEnv fixParams fixFrame constructDTC).1.drifters.getD 0
          zeroDrifter).position ∧
       ((processFrame fixEnv fixParams fixFrame constructDTC).1.drifters.getD 0
          zeroDrifter).position ≤ 1 / 2 + 0 + 1 / 20) := by decide

/-- C2 amended: after the bounce correction and hard clamp the
position always lies in `[0.001, 0.999]`; it additionally lies inside
`[anchor-wander, anchor+wander]` provided the pre-bounce position
overshoots the window by less than the window's width and the window
itself sits inside the clamp range — without that proviso (notably
when wander is 0) the reflected position can end up a finite distance
outside the window. -/
theorem drifter_position_bounds (pos vel dir anchor wander : ℚ) :
    (1 / 1000 ≤ (bounceAndClamp pos vel dir anchor wander).1 ∧
     (bounceAndClamp pos vel dir anchor wander).1 ≤ 999 / 1000) ∧
    (0 ≤ wander → 1 / 1000 ≤ anchor - wander → anchor + wander ≤ 999 / 1000 →
     anchor - 3 * wander ≤ pos → pos ≤ anchor + 3 * wander →
     anchor - wander ≤ (bounceAndClamp pos vel dir anchor wander).1 ∧
     (bounceAndClamp pos vel dir anchor wander).1 ≤ anchor + wander) := by
  unfold bounceAndClamp
  dsimp only
  split_ifs with h1 h2 h2
  all_goals
    refine ⟨⟨le_max_left _ _, max_le (by norm_num) (min_le_left _ _)⟩,
      fun hw ha hb hc hd => ?_⟩
  · exact absurd h2 (by push_neg; nlinarith)
  · exact clampBound _ _ _ _ _ ha hb (by nlinarith) (by nlinarith)
  · exact clampBound _ _ _ _ _ ha hb (by nlinarith) (by nlinarith)
  · exact clampBound _ _ _ _ _ ha hb (by nlinarith) (by nlinarith)

/-- Witness for the amended C2 at a concrete bounced position. -/
theorem drifter_position_bounds_witness :
    (1 / 1000 ≤ (bounceAndClamp (35 / 100) 0 1 (1 / 2) (1 / 10)).1 ∧
     (bounceAndClamp (35 / 100) 0 1 (1 / 2) (1 / 10)).1 ≤ 999 / 1000) ∧
    (1 / 2 - 1 / 10 ≤ (bounceAndClamp (35 / 100) 0 1 (1 / 2) (1 / 10)).1 ∧
     (bounceAndClamp (35 / 100) 0 1 (1 / 2) (1 / 10)).1 ≤ 1 / 2 + 1 / 10) := by
  have h := drifter_position_bounds (35 / 100) 0 1 (1 / 2) (1 / 10)
  exact ⟨h.1, h.2 (by norm_num) (by norm_num) (by norm_num) (by norm_num) (by norm_num)⟩

/-- Helper: once the running count has reached the CPU cap, the render
loop renders nothing — every remaining grain passes through untouched
with a zero mix, and only the active count advances. -/
theorem renderLoop_saturated (rf : Grain → Grain × ℚ × ℚ) :
    ∀ (pool : List Grain) (c : ℕ), 8 ≤ c →
      renderLoop rf c pool = (pool, 0, 0, c + activeCount pool) := by
  intro pool
  induction pool with
  | nil => intro c hc; simp [renderLoop, activeCount]
  | cons h rest ih =>
      intro c hc
      by_cases hh : h.active
      · simp [renderLoop, hh, show c + 1 > 8 by omega, ih (c + 1) (by omega),
          activeCount, List.countP_cons]
        omega
      · simp [renderLoop, hh, ih c hc, activeCount, List.countP_cons]

/-- Helper: render-loop step on an inactive head slot. -/
theorem renderLoop_cons_inactive (rf : Grain → Grain × ℚ × ℚ) (h : Grain)
    (rest : List Grain) (c : ℕ) (hh : h.active = false) :
    renderLoop rf c (h :: rest) =
      (h :: (renderLoop rf c rest).1, (renderLoop rf c rest).2.1,
       (renderLoop rf c rest).2.2.1, (renderLoop rf c rest).2.2.2) := by
  simp [renderLoop, hh]

/-- Helper: render-loop step on an active head beyond the CPU cap. -/
theorem renderLoop_cons_skip (rf : Grain → Grain × ℚ × ℚ) (h : Grain)
    (rest : List Grain) (c : ℕ) (hh : h.active = true) (hc : c + 1 > 8) :
    renderLoop rf c (h :: rest) =
      (h :: (renderLoop rf (c + 1) rest).1, (renderLoop rf (c + 1) rest).2.1,
       (renderLoop rf (c + 1) rest).2.2.1, (renderLoop rf (c + 1) rest).2.2.2) := by
  simp [renderLoop, hh, hc]

/-- Helper: render-loop step on an active head within the CPU cap. -/
theorem renderLoop_cons_render (rf : Grain → Grain × ℚ × ℚ) (h : Grain)
    (rest : List Grain) (c : ℕ) (hh : h.active = true) (hc : ¬(c + 1 > 8)) :
    renderLoop rf c (h :: rest) =
      ((rf h).1 :: (renderLoop rf (c + 1) rest).1,
       (rf h).2.1 + (renderLoop rf (c + 1) rest).2.1,
       (rf h).2.2 + (renderLoop rf (c + 1) rest).2.2.1,
       (renderLoop rf (c + 1) rest).2.2.2) := by
  simp [renderLoop, hh, hc]

/-- Helper: an active grain whose running active index (offset by `c`)
exceeds the CPU cap is left exactly unchanged by the render loop and
contributes nothing to either mix channel. -/
theorem renderLoop_skip_aux (rf : Grain → Grain × ℚ × ℚ) :
    ∀ (pool : List Grain) (g : ℕ) (c : ℕ),
      (pool.getD g inactiveGrain).active = true →
      8 < c + activeCount (pool.take (g + 1)) →
      ((renderLoop rf c pool).1.getD g inactiveGrain = pool.getD g inactiveGrain) ∧
      (renderLoop rf c pool).2.1 = (renderLoop rf c (deactivateAt pool g)).2.1 ∧
      (renderLoop rf c pool).2.2.1 = (renderLoop rf c (deactivateAt pool g)).2.2.1 := by
  intro pool
  induction pool with
  | nil =>
      intro g c hact _
      simp [inactiveGrain] at hact
  | cons h rest ih =>
      intro g c hact hcount
      cases g with
      | zero =>
          have hh : h.active = true := by simpa using hact
          have hc8 : 8 ≤ c := by
            have h1 : activeCount ((h :: rest).take (0 + 1)) = 1 := by
              simp [activeCount, hh]
            omega
          have hdeact : deactivateAt (h :: rest) 0 =
              { h with active := false } :: rest := by
            simp [deactivateAt]
          have e1 := renderLoop_saturated rf rest (c + 1) (by omega)
          have e2 := renderLoop_saturated rf rest c hc8
          rw [renderLoop_cons_skip rf h rest c hh (by omega), hdeact,
            renderLoop_cons_inactive rf _ rest c rfl]
          rw [e1, e2]
          simp
      | succ k =>
          have hact' : (rest.getD k inactiveGrain).active = true := by simpa using hact
          have hset : deactivateAt (h :: rest) (k + 1) = h :: deactivateAt rest k := by
            simp only [deactivateAt, List.set_cons_succ, List.getD_cons_succ]
          by_cases hh : h.active
          · have hcount' : 8 < (c + 1) + activeCount (rest.take (k + 1)) := by
              have h1 : activeCount ((h :: rest).take (k + 1 + 1)) =
                  1 + activeCount (rest.take (k + 1)) := by
                simp [activeCount, hh, List.countP_cons]
                omega
              omega
            have IH := ih k (c + 1) hact' hcount'
            by_cases hbig : c + 1 > 8
            · rw [hset, renderLoop_cons_skip rf h rest c hh hbig,
                renderLoop_cons_skip rf h (deactivateAt rest k) c hh hbig]
              simp only [List.getD_cons_succ]
              exact ⟨IH.1, IH.2.1, IH.2.2⟩
            · rw [hset, renderLoop_cons_render rf h rest c hh hbig,
                renderLoop_cons_render rf h (deactivateAt rest k) c hh hbig]
              simp only [List.getD_cons_succ]
              exact ⟨IH.1, by rw [IH.2.1], by rw [IH.2.2]⟩
          · have hh1 : h.active = false := by simpa using hh
            have hcount' : 8 < c + activeCount (rest.take (k + 1)) := by
              have h1 : activeCount ((h :: rest).take (k + 1 + 1)) =
                  activeCount (rest.take (k + 1)) := by
                simp [activeCount, hh1, List.countP_cons]
              omega
            have IH := ih k c hact' hcount'
            rw [hset, renderLoop_cons_inactive rf h rest c hh1,
              renderLoop_cons_inactive rf h (deactivateAt rest k) c hh1]
            simp only [List.getD_cons_succ]
            exact ⟨IH.1, IH.2.1, IH.2.2⟩

/-- C6: in a tick with more than `kMaxActiveGrains = 8` grains active,
every active grain beyond the first eight in pool-index order is fully
skipped: its entire state (position, phase, filter, active flag) is
unchanged by the tick, and the stereo mix equals the mix computed with
that grain absent. -/
theorem renderLoop_cpu_guard (rf : Grain → Grain × ℚ × ℚ) (pool : List Grain)
    (g : ℕ) (hact : (pool.getD g inactiveGrain).active = true)
    (hcount : 8 < activeCount (pool.take (g + 1))) :
    ((renderLoop rf 0 pool).1.getD g inactiveGrain = pool.getD g inactiveGrain) ∧
    (renderLoop rf 0 pool).2.1 = (renderLoop rf 0 (deactivateAt pool g)).2.1 ∧
    (renderLoop rf 0 pool).2.2.1 = (renderLoop rf 0 (deactivateAt pool g)).2.2.1 :=
  renderLoop_skip_aux rf pool g 0 hact (by simpa using hcount)

/-- Witness for C6: a nine-active pool, inspecting the ninth grain. -/
theorem renderLoop_cpu_guard_witness :
    ((renderLoop (renderOne fixEnv fixParams (1 / 2) (3 / 10) [1 / 2, 1 / 2, 1 / 2, 1 / 2])
        0 fixNinePool).1.getD 8 inactiveGrain = fixNinePool.getD 8 inactiveGrain) ∧
    (renderLoop (renderOne fixEnv fixParams (1 / 2) (3 / 10) [1 / 2, 1 / 2, 1 / 2, 1 / 2])
        0 fixNinePool).2.1 =
      (renderLoop (renderOne fixEnv fixParams (1 / 2) (3 / 10) [1 / 2, 1 / 2, 1 / 2, 1 / 2])
        0 (deactivateAt fixNinePool 8)).2.1 ∧
    (renderLoop (renderOne fixEnv fixParams (1 / 2) (3 / 10) [1 / 2, 1 / 2, 1 / 2, 1 / 2])
        0 fixNinePool).2.2.1 =
      (renderLoop (renderOne fixEnv fixParams (1 / 2) (3 / 10) [1 / 2, 1 / 2, 1 / 2, 1 / 2])
        0 (deactivateAt fixNinePool 8)).2.2.1 :=
  renderLoop_cpu_guard _ fixNinePool 8 (by decide) (by decide)

end Drifters
